import Mathlib

/-! Verification of the YOLOv3 training driver `src/yolo_train.py`.
Python strings are modelled as `List Char`, Python floats as rationals,
and effects (file writes, metric updates, validation calls) as explicit
action values.  Every definition is translated from the source file;
line numbers in the comments refer to `src/yolo_train.py`. -/

namespace YoloTrain

/-! Dataset adapter `GroundTruthDataset` (lines 116-168). -/

/-- One bounding-box annotation of a manifest entry: the JSON object read
at `box['left']`, `box['top']`, `box['width']`, `box['height']`. -/
structure Annotation where
  left : Int
  top : Int
  width : Int
  height : Int
deriving DecidableEq, Repr

/-- One parsed JSON line of the manifest: `info['source-ref']` and
`info[field_name]['annotations']`. -/
structure ManifestEntry where
  sourceRef : List Char
  annotations : List Annotation
deriving DecidableEq, Repr

/-- Python `s.partition(sep)[2]` (line 154): the part after the first
occurrence of `sep`, or the empty string when `sep` does not occur. -/
def pyPartitionAfter (sep : Char) (s : List Char) : List Char :=
  match s.dropWhile (fun c => c ≠ sep) with
  | [] => []
  | _ :: rest => rest

/-- Lines 153-157: `info['source-ref'][5:].partition('/')[2] if
(info['source-ref'][:5] == 's3://') else info['source-ref']`. -/
def stripS3 (s : List Char) : List Char :=
  if s.take 5 = "s3://".toList then pyPartitionAfter '/' (s.drop 5) else s

/-- Python `s.split(sep)` for a one-character separator (line 158),
keeping empty components, `"".split(sep) == ['']`. -/
def pySplit (sep : Char) : List Char → List (List Char)
  | [] => [[]]
  | c :: rest =>
    if c = sep then [] :: pySplit sep rest
    else
      match pySplit sep rest with
      | [] => [[c]]
      | g :: gs => (c :: g) :: gs

/-- `posixpath.join` for two components: the second replaces the path when
absolute, otherwise it is appended with a separator as needed. -/
def osPathJoin2 (a b : List Char) : List Char :=
  if b.head? = some '/' then b
  else if a = [] ∨ a.getLast? = some '/' then a ++ b
  else a ++ '/' :: b

/-- `os.path.join(image_path, *source_ref.split('/'))` (line 158). -/
def osPathJoin (a : List Char) (comps : List (List Char)) : List Char :=
  comps.foldl osPathJoin2 a

/-- The state a `GroundTruthDataset` holds after `__init__`. -/
structure GroundTruthDataset where
  dataPath : List Char
  imagePath : List Char
  fieldName : List Char
  imageInfo : List ManifestEntry
deriving DecidableEq, Repr

/-- `GroundTruthDataset.__init__` (lines 120-138): iterate over the parsed
manifest lines and append an entry exactly when
`len(info[field_name]['annotations'])` is truthy, i.e. nonzero.  JSON
parsing itself (`json.loads(line[:-1])`) is abstracted: the manifest is
given as the list of already-parsed entries. -/
def GroundTruthDataset.init (dataPath imagePath fieldName : List Char)
    (lines : List ManifestEntry) : GroundTruthDataset :=
  { dataPath := dataPath
    imagePath := imagePath
    fieldName := fieldName
    imageInfo :=
      lines.foldl
        (fun acc info =>
          if info.annotations.length ≠ 0 then acc ++ [info] else acc)
        [] }

/-- `GroundTruthDataset.__len__` (lines 167-168). -/
def GroundTruthDataset.len (d : GroundTruthDataset) : Nat :=
  d.imageInfo.length

/-- The label row built for one box (lines 162-163):
`[box['left'], box['top'], box['left']+box['width'],
box['top']+box['height'], 0]`. -/
def labelRow (b : Annotation) : List Int :=
  [b.left, b.top, b.left + b.width, b.top + b.height, 0]

/-- `GroundTruthDataset.__getitem__` (lines 140-165).  The image returned
by `mx.image.imread` is modelled by the path it reads from; the label
array is the list of rows appended by the loop. -/
def GroundTruthDataset.getitem (d : GroundTruthDataset) (idx : Nat)
    (h : idx < d.imageInfo.length) : List Char × List (List Int) :=
  let info := d.imageInfo.get ⟨idx, h⟩
  let sourceRef := stripS3 info.sourceRef
  (osPathJoin d.imagePath (pySplit '/' sourceRef),
   info.annotations.foldl (fun acc box => acc ++ [labelRow box]) [])

/-! Checkpoint helper `save_params` (lines 206-214). -/

/-- A file write performed by `save_params`.  The format strings of the
source are recorded in the constructors: `bestParams` is
`'\x7b:s\x7d_best.params'.format(prefix, ...)` (extra format arguments are
ignored by Python), `bestMapLogAppend` appends
`'\x7b:04d\x7d:\t\x7b:.4f\x7d\n'.format(epoch, current_map)` to
`prefix + '_best_map.log'`, and `periodicParams` is
`'\x7b:s\x7d_\x7b:04d\x7d_\x7b:.4f\x7d.params'.format(prefix, epoch,
current_map)`. -/
inductive FileWrite where
  | bestParams (pfx : List Char)
  | bestMapLogAppend (pfx : List Char) (epoch : Int) (map : ℚ)
  | periodicParams (pfx : List Char) (epoch : Int) (map : ℚ)
deriving DecidableEq, Repr

/-- `save_params(net, best_map, current_map, epoch, save_interval, prefix)`
(lines 206-214).  `best_map` is a one-element list used as a mutable cell;
the function returns its new value together with the file writes, in
order.  `float(current_map)` is the identity in the rational model.
`if save_interval and epoch % save_interval == 0` tests `save_interval`
for truthiness (nonzero) and then divisibility. -/
def save_params (best_map current_map : ℚ) (epoch save_interval : Int)
    (pfx : List Char) : ℚ × List FileWrite :=
  let bestWrites :=
    if current_map > best_map then
      [FileWrite.bestParams pfx, FileWrite.bestMapLogAppend pfx epoch current_map]
    else []
  let best' := if current_map > best_map then current_map else best_map
  let periodicWrites :=
    if save_interval ≠ 0 ∧ epoch % save_interval = 0 then
      [FileWrite.periodicParams pfx epoch current_map]
    else []
  (best', bestWrites ++ periodicWrites)

/-- Folding `save_params` over a history of `current_map` values sharing
one `best_map` cell, as the epoch loop of `train` does (line 415); only
the cell value is tracked (epoch, interval and prefix do not affect it). -/
def save_params_fold (best0 : ℚ) (history : List ℚ) : ℚ :=
  history.foldl (fun b m => (save_params b m 0 0 []).1) best0

/-! Validation (`validate`, lines 216-245) and the epoch-level validation
schedule of `train` (lines 397-414). -/

/-- One observable action of `validate` on the metric and the network. -/
inductive ValAction where
  | metricReset
  | setNms (thresh : ℚ) (topk : Nat)
  | metricUpdate (batchIdx : Nat)
  | metricGet
deriving DecidableEq, Repr

/-- `validate(net, val_data, ctx, eval_metric)` (lines 216-245) as its
action trace: reset the metric, set `nms_thresh=0.45, nms_topk=400`,
update the metric once per batch of the validation loader, and read the
metric off at the end (its value is the mean average precision). -/
def validate (valBatches : Nat) : List ValAction :=
  [ValAction.metricReset, ValAction.setNms (45/100) 400]
    ++ (List.range valBatches).map ValAction.metricUpdate
    ++ [ValAction.metricGet]

/-- Lines 397-414 of `train`: `if not (epoch + 1) % args.val_interval:`
run `validate` and take `current_map` from the returned mean average
precision, `else: current_map = 0.`.  Returns the validation actions of
the epoch and the `current_map` passed on to `save_params`. -/
def epochValidation (val_interval epoch : Int) (valBatches : Nat)
    (meanAp : ℚ) : List ValAction × ℚ :=
  if (epoch + 1) % val_interval = 0 then (validate valBatches, meanAp)
  else ([], 0)

/-! Per-batch loss computation of `train` (lines 356-381). -/

/-- The four loss terms `net(x, gt_boxes[ix], *fixed_targets)` returns for
one per-device slice of a batch (line 370). -/
structure LossTerms where
  obj : ℚ
  center : ℚ
  scale : ℚ
  cls : ℚ
deriving DecidableEq, Repr

/-- The five lists the loop over device slices appends to
(lines 363-375). -/
structure BatchLists where
  sum_losses : List ℚ
  obj_losses : List ℚ
  center_losses : List ℚ
  scale_losses : List ℚ
  cls_losses : List ℚ
deriving DecidableEq, Repr

/-- Lines 363-375: start from five empty lists and, for each device slice,
append `obj_loss + center_loss + scale_loss + cls_loss` to `sum_losses`
and each individual term to its own list. -/
def trainBatchStep (slices : List LossTerms) : BatchLists :=
  slices.foldl
    (fun acc t =>
      { sum_losses := acc.sum_losses ++ [t.obj + t.center + t.scale + t.cls]
        obj_losses := acc.obj_losses ++ [t.obj]
        center_losses := acc.center_losses ++ [t.center]
        scale_losses := acc.scale_losses ++ [t.scale]
        cls_losses := acc.cls_losses ++ [t.cls] })
    ⟨[], [], [], [], []⟩

/-- `autograd.backward(sum_losses)` (line 376): the losses that are
backpropagated. -/
def backwardArg (slices : List LossTerms) : List ℚ :=
  (trainBatchStep slices).sum_losses

/-- Lines 378-381: the four metric updates after the backward pass, each
metric name paired with the list of values it is updated with. -/
def metricUpdates (slices : List LossTerms) : List (List Char × List ℚ) :=
  [("ObjLoss".toList, (trainBatchStep slices).obj_losses),
   ("BoxCenterLoss".toList, (trainBatchStep slices).center_losses),
   ("BoxScaleLoss".toList, (trainBatchStep slices).scale_losses),
   ("ClassLoss".toList, (trainBatchStep slices).cls_losses)]

/-! Network construction in the `__main__` block (lines 418-453) and the
`--pretrained` argument (lines 101-102). -/

/-- `argparse` semantics of
`parser.add_argument('--pretrained', action='store_false')` (line 101):
the destination defaults to `True` and is set to `False` when the flag is
given on the command line. -/
def argPretrained (flagGiven : Bool) : Bool := !flagGiven

/-- Lines 424-425: `ctx = [mx.gpu(i) for i in range(num_gpus)]` then
`ctx = ctx if ctx else [mx.cpu()]`; the model keeps only the length. -/
def ctxLen (num_gpus : Int) : Nat :=
  if num_gpus.toNat = 0 then 1 else num_gpus.toNat

/-- Line 431: `num_sync_bn_devices = len(ctx) if args.syncbn else -1`. -/
def num_sync_bn_devices (syncbn : Bool) (num_gpus : Int) : Int :=
  if syncbn then (ctxLen num_gpus : Int) else -1

/-- How `get_model` is invoked to build `net`. -/
inductive NetConstruction where
  | pretrainedFull (name : List Char) (syncDevices : Option Int)
  | pretrainedBase (name : List Char) (syncDevices : Int)
deriving DecidableEq, Repr

/-- Lines 433-453: when `num_sync_bn_devices > 1`, `net` is
`get_model(net_name, pretrained=True, num_sync_bn_devices=...)` if
`args.pretrained` else `get_model(net_name, pretrained_base=True,
num_sync_bn_devices=...)`; otherwise `net = get_model(net_name,
pretrained=True)` (the `args.pretrained` conditional of that branch is
commented out in the source). -/
def buildNet (name : List Char) (syncbn : Bool) (num_gpus : Int)
    (pretrained : Bool) : NetConstruction :=
  if num_sync_bn_devices syncbn num_gpus > 1 then
    if pretrained then
      NetConstruction.pretrainedFull name (some (num_sync_bn_devices syncbn num_gpus))
    else
      NetConstruction.pretrainedBase name (num_sync_bn_devices syncbn num_gpus)
  else NetConstruction.pretrainedFull name none

/-! Data loaders, `get_dataloader` (lines 185-204). -/

/-- One `YOLO3DefaultTrainTransform(width, height, net, mixup=...)`. -/
structure TrainTransform where
  width : Nat
  height : Nat
  mixup : Bool
deriving DecidableEq, Repr

/-- One `YOLO3DefaultValTransform(width, height)`. -/
structure ValTransform where
  width : Nat
  height : Nat
deriving DecidableEq, Repr

/-- The training loader built by `get_dataloader`: either a plain
`gluon.data.DataLoader` over a single transform, or a
`RandomTransformDataLoader` over a list of transforms re-sampled every
`interval` batches. -/
inductive TrainLoaderCfg where
  | fixedShape (t : TrainTransform) (batchSize : Nat) (shuffle : Bool)
      (lastBatchDiscard : Bool)
  | randomShape (ts : List TrainTransform) (batchSize : Nat) (interval : Nat)
      (shuffle : Bool) (lastBatchDiscard : Bool)
deriving DecidableEq, Repr

/-- The validation loader built by `get_dataloader` (lines 200-203). -/
structure ValLoaderCfg where
  t : ValTransform
  batchSize : Nat
  shuffle : Bool
  lastBatchDiscard : Bool
deriving DecidableEq, Repr

/-- `get_dataloader(net, train_dataset, val_dataset, data_shape,
batch_size, num_workers, args)` (lines 185-204), keeping the loader
configuration.  `width, height = data_shape, data_shape`; with
`args.no_random_shape` the train loader uses the single fixed transform,
otherwise `[YOLO3DefaultTrainTransform(x * 32, x * 32, net, mixup=...)
for x in range(10, 20)]` with `interval=10`, `shuffle=True`,
`last_batch='discard'`; the validation loader always uses
`YOLO3DefaultValTransform(width, height)`. -/
def get_dataloader (data_shape batch_size : Nat)
    (no_random_shape mixup : Bool) : TrainLoaderCfg × ValLoaderCfg :=
  let width := data_shape
  let height := data_shape
  let train :=
    if no_random_shape then
      TrainLoaderCfg.fixedShape ⟨width, height, mixup⟩ batch_size true true
    else
      TrainLoaderCfg.randomShape
        ((List.range' 10 10).map (fun x => ⟨x * 32, x * 32, mixup⟩))
        batch_size 10 true true
  (train, ⟨⟨width, height⟩, batch_size, true, true⟩)

/-! Module-level execution and name resolution (lines 1-33 and the
function bodies).  Python looks a name up in the local scope, then the
module globals, then the builtins; a load of a name bound in none of them
raises `NameError`. -/

/-- A module-level statement, reduced to what it does to the global
namespace: an `import`/`from ... import` binds a name, a `def` binds a
name, and an expression statement performs a sequence of global name
loads (in evaluation order). -/
inductive Stmt where
  | importBind (n : String)
  | defBind (n : String)
  | exprReads (reads : List String)
deriving DecidableEq, Repr

/-- Run the module statements in order over the environment of bound
names: the first load of an unbound name stops execution with a
`NameError` naming it. -/
def runStmts : List Stmt → List String → Except String (List String)
  | [], env => Except.ok env
  | Stmt.importBind n :: rest, env => runStmts rest (env ++ [n])
  | Stmt.defBind n :: rest, env => runStmts rest (env ++ [n])
  | Stmt.exprReads rs :: rest, env =>
    match rs.find? (fun r => !env.contains r) with
    | some r => Except.error ("NameError: " ++ r)
    | none => runStmts rest env

/-- The Python builtin names the script uses (none of its statements reads
any other builtin). -/
def pythonBuiltins : List String :=
  ["print", "len", "range", "enumerate", "zip", "float", "int",
   "isinstance", "open", "list", "str", "AttributeError", "__name__"]

/-- The module-level statements of `src/yolo_train.py` in order:
lines 6-12 import `argparse, json, logging, os, subprocess, time,
warnings`; line 15 evaluates
`subprocess.call([sys.executable, '-m', 'pip', 'install', '--upgrade',
'gluoncv'])`, loading `subprocess` (the callee) and then `sys` (first
argument element); lines 18-33 are the remaining imports; the `def`
statements follow.  The `if __name__ == '__main__':` block (line 418) is
not part of the import-time namespace and is modelled separately by
`mainGuardBinds`. -/
def moduleStatements : List Stmt :=
  [Stmt.importBind "argparse", Stmt.importBind "json",
   Stmt.importBind "logging", Stmt.importBind "os",
   Stmt.importBind "subprocess", Stmt.importBind "time",
   Stmt.importBind "warnings",
   Stmt.exprReads ["subprocess", "sys"],
   Stmt.importBind "gcv", Stmt.importBind "gdata", Stmt.importBind "gutils",
   Stmt.importBind "Tuple", Stmt.importBind "Stack", Stmt.importBind "Pad",
   Stmt.importBind "RandomTransformDataLoader",
   Stmt.importBind "YOLO3DefaultTrainTransform",
   Stmt.importBind "YOLO3DefaultValTransform",
   Stmt.importBind "get_model", Stmt.importBind "COCODetectionMetric",
   Stmt.importBind "LRScheduler", Stmt.importBind "LRSequential",
   Stmt.importBind "VOC07MApMetric",
   Stmt.importBind "mx", Stmt.importBind "nd", Stmt.importBind "gluon",
   Stmt.importBind "autograd", Stmt.importBind "np",
   Stmt.defBind "parse_args", Stmt.defBind "GroundTruthDataset",
   Stmt.defBind "get_dataset", Stmt.defBind "get_dataloader",
   Stmt.defBind "save_params", Stmt.defBind "validate",
   Stmt.defBind "validate_train", Stmt.defBind "train"]

/-- The names a statement binds in the module globals. -/
def stmtBinds : Stmt → List String
  | Stmt.importBind n => [n]
  | Stmt.defBind n => [n]
  | Stmt.exprReads _ => []

/-- All names the module-level imports and defs would bind (the globals
available to a function body called after a completed import of the
module). -/
def moduleGlobalNames : List String :=
  moduleStatements.foldr (fun s acc => stmtBinds s ++ acc) []

/-- The names the `if __name__ == '__main__':` block (lines 418-470)
assigns at module scope, in case the script is run as a program:
`args, ctx, net_name, num_sync_bn_devices, net, async_net, w,
train_dataset, val_dataset, eval_metric, train_data, val_data`. -/
def mainGuardBinds : List String :=
  ["args", "ctx", "net_name", "num_sync_bn_devices", "net", "async_net",
   "w", "train_dataset", "val_dataset", "eval_metric", "train_data",
   "val_data"]

/-! Static model of `validate_train` (lines 247-277). -/

/-- The parameters of `def validate_train(net, train_data, ctx,
eval_metric)` (line 247). -/
def validate_train_params : List String :=
  ["net", "train_data", "ctx", "eval_metric"]

/-- Every name assigned in the body of `validate_train` (and hence local
to it): `clipper` (249), the loop targets `batch` (254), `x, y` (262),
and `det_bbox, det_id, det_score, gt_bbox, gt_id, gt_diff` (274-276),
the accumulator lists (257-261), and `ids, scores, bboxes` (264). -/
def validate_train_locals : List String :=
  ["clipper", "batch", "data", "label", "det_bboxes", "det_ids",
   "det_scores", "gt_bboxes", "gt_ids", "x", "y", "ids", "scores",
   "bboxes", "det_bbox", "det_id", "det_score", "gt_bbox", "gt_id",
   "gt_diff"]

/-- The name loads of the body of `validate_train` that are not bound
locally (not parameters, not assigned in the body), in order of first
execution: `gcv` (line 249), `eval_metric` is a parameter, `args`
(line 251, `args.disable_hybridization`), then — were execution to get
that far — `args` again (253), `val_data` (254, the loop iterates
`val_data`, not the `train_data` parameter), `gluon` (255, 256), `zip`
(262, 274) and `gt_difficults` (276). -/
def validate_train_reads : List String :=
  ["gcv", "args", "args", "val_data", "gluon", "gluon", "zip", "zip",
   "gt_difficults"]

/-- Resolution of the name loads of a function body called with
environment `env`: `NameError` at the first unbound name. -/
def pyCallResult (env reads : List String) : Except String Unit :=
  match reads.find? (fun r => !env.contains r) with
  | some r => Except.error ("NameError: " ++ r)
  | none => Except.ok ()

/-- The environment a call of `validate_train` would resolve names in,
had the module import completed: its parameters and locals, the module
globals, and the builtins. -/
def validate_train_env : List String :=
  validate_train_params ++ validate_train_locals ++ moduleGlobalNames
    ++ pythonBuiltins

/-- The user-defined functions of the script that are called anywhere in
it: `parse_args` (line 419), `GroundTruthDataset` (173, 174),
`get_dataset` (465), `get_dataloader` (466), `save_params` (415),
`validate` (400) and `train` (470). -/
def scriptCalledDefs : List String :=
  ["parse_args", "GroundTruthDataset", "get_dataset", "get_dataloader",
   "save_params", "validate", "train"]

/-! Concrete fixtures used by the witness theorems. -/

/-- A manifest entry whose source-ref is an S3 URI and which has one
annotation. -/
def entryWit : ManifestEntry :=
  ⟨"s3://bkt/pics/a.jpg".toList, [⟨1, 2, 3, 4⟩]⟩

/-- A dataset built from a one-line manifest holding `entryWit`. -/
def dWit : GroundTruthDataset :=
  GroundTruthDataset.init "data".toList "imgs".toList "labels".toList
    [entryWit]

/-- A manifest entry with an empty annotations list. -/
def emptyEntry : ManifestEntry :=
  ⟨"a.jpg".toList, []⟩

/-! Helper lemmas shared by the claim theorems. -/

/-- `partition('/')[2]` after a slash-free bucket returns the key. -/
theorem pyPartitionAfter_append (bucket key : List Char)
    (hb : ∀ c ∈ bucket, c ≠ '/') :
    pyPartitionAfter '/' (bucket ++ '/' :: key) = key := by
  induction bucket with
  | nil => simp [pyPartitionAfter]
  | cons c cs ih =>
    have hc : c ≠ '/' := hb c (by simp)
    have hcs : ∀ x ∈ cs, x ≠ '/' := fun x hx => hb x (by simp [hx])
    simpa [pyPartitionAfter, List.dropWhile, hc] using ih hcs

/-- On an S3 URI, `stripS3` drops the scheme and the bucket. -/
theorem stripS3_s3 (bucket key : List Char) (hb : ∀ c ∈ bucket, c ≠ '/') :
    stripS3 ("s3://".toList ++ bucket ++ '/' :: key) = key := by
  unfold stripS3
  rw [List.append_assoc]
  rw [show (5 : Nat) = ("s3://".toList).length from rfl, List.take_left,
    List.drop_left]
  simp [pyPartitionAfter_append bucket key hb]

/-- On anything not starting with the S3 scheme, `stripS3` is the
identity. -/
theorem stripS3_not_s3 (s : List Char) (h : s.take 5 ≠ "s3://".toList) :
    stripS3 s = s := by
  unfold stripS3
  exact if_neg h

/-- The label loop of `__getitem__` appends one row per annotation. -/
theorem foldl_append_labels (boxes : List Annotation)
    (acc : List (List Int)) :
    boxes.foldl (fun acc box => acc ++ [labelRow box]) acc
      = acc ++ boxes.map labelRow := by
  induction boxes generalizing acc with
  | nil => simp
  | cons b bs ih => simp [ih]

/-- The append loop of `__init__` keeps exactly the manifest lines with a
nonempty annotations list, in order. -/
theorem init_imageInfo (dp ip fn : List Char) (lines : List ManifestEntry) :
    (GroundTruthDataset.init dp ip fn lines).imageInfo
      = lines.filter (fun e => e.annotations.length ≠ 0) := by
  show lines.foldl _ [] = _
  have key : ∀ (ls : List ManifestEntry) (acc : List ManifestEntry),
      ls.foldl (fun acc info =>
        if info.annotations.length ≠ 0 then acc ++ [info] else acc) acc
        = acc ++ ls.filter (fun e => e.annotations.length ≠ 0) := by
    intro ls
    induction ls with
    | nil => simp
    | cons e es ih =>
      intro acc
      rw [List.foldl_cons]
      by_cases h : e.annotations.length ≠ 0
      · rw [if_pos h, ih, List.filter_cons_of_pos (by simpa using h)]
        simp
      · rw [if_neg h, ih, List.filter_cons_of_neg (by simpa using h)]
  simpa using key lines []

/-- The slice loop of `train` builds each of the five lists by mapping
over the slices, after the initial accumulator. -/
theorem trainBatchStep_acc (slices : List LossTerms) (acc : BatchLists) :
    slices.foldl
      (fun acc t =>
        { sum_losses := acc.sum_losses ++ [t.obj + t.center + t.scale + t.cls]
          obj_losses := acc.obj_losses ++ [t.obj]
          center_losses := acc.center_losses ++ [t.center]
          scale_losses := acc.scale_losses ++ [t.scale]
          cls_losses := acc.cls_losses ++ [t.cls] }) acc
      = { sum_losses := acc.sum_losses
            ++ slices.map (fun t => t.obj + t.center + t.scale + t.cls)
          obj_losses := acc.obj_losses ++ slices.map (fun t => t.obj)
          center_losses := acc.center_losses ++ slices.map (fun t => t.center)
          scale_losses := acc.scale_losses ++ slices.map (fun t => t.scale)
          cls_losses := acc.cls_losses ++ slices.map (fun t => t.cls) } := by
  induction slices generalizing acc with
  | nil => simp
  | cons t ts ih => rw [List.foldl_cons, ih]; simp

/-- One `save_params` call leaves the cell at the maximum of its old value
and `current_map`. -/
theorem save_params_fst (b m : ℚ) (e si : Int) (p : List Char) :
    (save_params b m e si p).1 = max b m := by
  by_cases h : m > b
  · simp [save_params, h, max_eq_right h.le]
  · simp [save_params, h, max_eq_left (not_lt.mp h)]

/-- The best-model checkpoint write happens exactly when `current_map`
beats the cell. -/
theorem save_params_mem_best (b m : ℚ) (e si : Int) (p : List Char) :
    FileWrite.bestParams p ∈ (save_params b m e si p).2 ↔ m > b := by
  by_cases h : m > b <;>
    by_cases hp : si ≠ 0 ∧ e % si = 0 <;>
      simp [save_params, h, hp]

/-- Folding `save_params` over a history computes a running maximum. -/
theorem save_params_fold_eq_max (best0 : ℚ) (history : List ℚ) :
    save_params_fold best0 history = history.foldl max best0 := by
  unfold save_params_fold
  induction history generalizing best0 with
  | nil => rfl
  | cons m ms ih =>
    rw [List.foldl_cons, List.foldl_cons, save_params_fst, ih]

/-- A left fold of `max` never goes below its start. -/
theorem le_foldl_max (b : ℚ) (l : List ℚ) : b ≤ l.foldl max b := by
  induction l generalizing b with
  | nil => simp
  | cons x xs ih =>
    rw [List.foldl_cons]
    exact le_trans (le_max_left b x) (ih (max b x))


/-- Claim C1: the spec promises that the script performs the
parse/load/train/validate/checkpoint sequence, i.e. that module-level
initialization succeeds and execution reaches `parse_args`.  In fact the
module-level statement `subprocess.call([sys.executable, ...])` (line 15)
loads the name `sys`, which no earlier import binds (`sys` is never
imported) and which is not a builtin, so module execution stops with a
`NameError` before any function is defined or called. -/
theorem C1_module_init_name_error :
    runStmts moduleStatements pythonBuiltins
        = Except.error ("NameError: " ++ "sys")
    ∧ "sys" ∉ moduleGlobalNames ++ pythonBuiltins :=
  ⟨rfl, by decide⟩

/-- Claim C2: for every valid index, `__getitem__` returns the image read
from `image_path` joined with the source-ref components (the
`s3://<bucket>/` prefix stripped when the source-ref starts with `s3://`,
the source-ref verbatim otherwise) together with one label row
`[left, top, left+width, top+height, 0]` per annotation. -/
theorem C2_getitem_path_and_labels (d : GroundTruthDataset) (idx : Nat)
    (h : idx < d.imageInfo.length) :
    (d.getitem idx h).2
        = (d.imageInfo.get ⟨idx, h⟩).annotations.map
            (fun b => [b.left, b.top, b.left + b.width, b.top + b.height, 0])
    ∧ (∀ bucket key, (∀ c ∈ bucket, c ≠ '/') →
        (d.imageInfo.get ⟨idx, h⟩).sourceRef
            = "s3://".toList ++ bucket ++ '/' :: key →
        (d.getitem idx h).1 = osPathJoin d.imagePath (pySplit '/' key))
    ∧ ((d.imageInfo.get ⟨idx, h⟩).sourceRef.take 5 ≠ "s3://".toList →
        (d.getitem idx h).1
            = osPathJoin d.imagePath
                (pySplit '/' (d.imageInfo.get ⟨idx, h⟩).sourceRef)) := by
  refine ⟨?_, ?_, ?_⟩
  · show (d.imageInfo.get ⟨idx, h⟩).annotations.foldl _ [] = _
    rw [foldl_append_labels]
    simp [labelRow]
  · intro bucket key hb hs
    show osPathJoin d.imagePath
        (pySplit '/' (stripS3 (d.imageInfo.get ⟨idx, h⟩).sourceRef)) = _
    rw [hs, stripS3_s3 bucket key hb]
  · intro hs
    show osPathJoin d.imagePath
        (pySplit '/' (stripS3 (d.imageInfo.get ⟨idx, h⟩).sourceRef)) = _
    rw [stripS3_not_s3 _ hs]

/-- Witness for C2 at a concrete dataset: the S3 scheme and bucket are
stripped and the single annotation yields the row [1, 2, 4, 6, 0]. -/
theorem C2_witness :
    (dWit.getitem 0 (by decide)).2 = [[1, 2, 4, 6, 0]]
    ∧ (dWit.getitem 0 (by decide)).1 = "imgs/pics/a.jpg".toList := by
  have h := C2_getitem_path_and_labels dWit 0 (by decide)
  refine ⟨?_, ?_⟩
  · rw [h.1]; decide
  · rw [h.2.1 "bkt".toList "pics/a.jpg".toList (by decide) (by decide)]
    decide


/-- Claim C3 counterexample: the claim states that the constructor keeps
every parsed manifest line and `__len__` returns the number of manifest
lines; on a one-line manifest whose annotations list is empty the
constructor keeps nothing and `__len__` returns 0, not 1. -/
theorem C3_counterexample :
    (GroundTruthDataset.init "data".toList "imgs".toList "labels".toList
        [emptyEntry]).len = 0
    ∧ ([emptyEntry] : List ManifestEntry).length = 1
    ∧ ((GroundTruthDataset.init "data".toList "imgs".toList "labels".toList
        [emptyEntry]).len == ([emptyEntry] : List ManifestEntry).length)
        = false := by
  decide

/-- Claim C3 (amended): the constructor keeps exactly the parsed manifest
lines whose annotations list under `field_name` is nonempty, in order, so
every stored entry has at least one annotation and `__len__` counts only
the non-empty-annotation lines. -/
theorem C3_amended_init_filters (dp ip fn : List Char)
    (lines : List ManifestEntry) :
    (GroundTruthDataset.init dp ip fn lines).imageInfo
        = lines.filter (fun e => e.annotations.length ≠ 0)
    ∧ (GroundTruthDataset.init dp ip fn lines).len
        = (lines.filter (fun e => e.annotations.length ≠ 0)).length
    ∧ (GroundTruthDataset.init dp ip fn lines).imageInfo.all
        (fun e => e.annotations.length != 0) = true := by
  refine ⟨init_imageInfo dp ip fn lines, ?_, ?_⟩
  · show (GroundTruthDataset.init dp ip fn lines).imageInfo.length = _
    rw [init_imageInfo]
  · rw [init_imageInfo]
    simp [List.all_eq_true, List.mem_filter]

/-- Claim C4: one `save_params` call writes the periodic checkpoint iff
`save_interval` is nonzero and divides `epoch`, writes the best-model
checkpoint and appends to the best-map log iff `current_map` beats the
cell, and writes nothing else. -/
theorem C4_save_params_writes (B m : ℚ) (epoch si : Int) (pfx : List Char) :
    (FileWrite.periodicParams pfx epoch m ∈ (save_params B m epoch si pfx).2
        ↔ si ≠ 0 ∧ epoch % si = 0)
    ∧ (FileWrite.bestParams pfx ∈ (save_params B m epoch si pfx).2 ↔ m > B)
    ∧ (FileWrite.bestMapLogAppend pfx epoch m
          ∈ (save_params B m epoch si pfx).2 ↔ m > B)
    ∧ (save_params B m epoch si pfx).2
        ⊆ [FileWrite.bestParams pfx, FileWrite.bestMapLogAppend pfx epoch m,
           FileWrite.periodicParams pfx epoch m] := by
  refine ⟨?_, ?_, ?_, ?_⟩
  · by_cases h : m > B <;> by_cases hp : si ≠ 0 ∧ epoch % si = 0 <;>
      simp [save_params, h, hp]
  · by_cases h : m > B <;> by_cases hp : si ≠ 0 ∧ epoch % si = 0 <;>
      simp [save_params, h, hp]
  · by_cases h : m > B <;> by_cases hp : si ≠ 0 ∧ epoch % si = 0 <;>
      simp [save_params, h, hp]
  · intro w hw
    simp only [save_params, List.mem_append] at hw
    simp only [List.mem_cons, List.not_mem_nil, or_false]
    rcases hw with h1 | h2
    · split at h1
      · simp only [List.mem_cons, List.not_mem_nil, or_false] at h1
        rcases h1 with hcase | hcase
        · exact Or.inl hcase
        · exact Or.inr (Or.inl hcase)
      · exact absurd h1 (List.not_mem_nil w)
    · split at h2
      · simp only [List.mem_cons, List.not_mem_nil, or_false] at h2
        exact Or.inr (Or.inr h2)
      · exact absurd h2 (List.not_mem_nil w)

/-- Claim C5: validation runs exactly for the epochs where `epoch + 1` is
divisible by `val_interval`; it resets the metric, sets
`nms_thresh=0.45, nms_topk=400` and updates the metric once per
validation batch; every other epoch runs no validation and passes
`current_map = 0` on. -/
theorem C5_validation_schedule (vi epoch : Int) (vb : Nat) (meanAp : ℚ)
    (hvi : vi ≠ 0) :
    ((epoch + 1) % vi = 0 →
        epochValidation vi epoch vb meanAp = (validate vb, meanAp)
        ∧ validate vb
            = [ValAction.metricReset, ValAction.setNms (45/100) 400]
                ++ (List.range vb).map ValAction.metricUpdate
                ++ [ValAction.metricGet])
    ∧ ((epoch + 1) % vi ≠ 0 →
        epochValidation vi epoch vb meanAp = ([], 0)) := by
  constructor
  · intro h
    exact ⟨by simp [epochValidation, h], rfl⟩
  · intro h
    simp [epochValidation, h]

/-- Witness for C5: with `val_interval = 1` epoch 0 validates, with
`val_interval = 2` epoch 0 does not and `current_map` is 0. -/
theorem C5_witness :
    epochValidation 1 0 2 (1/2) = (validate 2, 1/2)
    ∧ epochValidation 2 0 2 (1/2) = ([], 0) := by
  have h1 := C5_validation_schedule 1 0 2 (1/2) (by decide)
  have h2 := C5_validation_schedule 2 0 2 (1/2) (by decide)
  exact ⟨(h1.1 (by decide)).1, h2.2 (by decide)⟩


/-- Claim C6: for every batch, the per-slice scalar loss that is
backpropagated is `obj_loss + center_loss + scale_loss + cls_loss`, and
the four running loss metrics are updated with exactly their
corresponding per-slice terms. -/
theorem C6_composite_loss (slices : List LossTerms) :
    (trainBatchStep slices).sum_losses
        = slices.map (fun t => t.obj + t.center + t.scale + t.cls)
    ∧ backwardArg slices
        = slices.map (fun t => t.obj + t.center + t.scale + t.cls)
    ∧ metricUpdates slices
        = [("ObjLoss".toList, slices.map (fun t => t.obj)),
           ("BoxCenterLoss".toList, slices.map (fun t => t.center)),
           ("BoxScaleLoss".toList, slices.map (fun t => t.scale)),
           ("ClassLoss".toList, slices.map (fun t => t.cls))] := by
  have hstep : trainBatchStep slices
      = { sum_losses := slices.map (fun t => t.obj + t.center + t.scale + t.cls)
          obj_losses := slices.map (fun t => t.obj)
          center_losses := slices.map (fun t => t.center)
          scale_losses := slices.map (fun t => t.scale)
          cls_losses := slices.map (fun t => t.cls) } := by
    unfold trainBatchStep
    rw [trainBatchStep_acc]
    simp
  refine ⟨?_, ?_, ?_⟩
  · rw [hstep]
  · show (trainBatchStep slices).sum_losses = _
    rw [hstep]
  · show [("ObjLoss".toList, (trainBatchStep slices).obj_losses),
      ("BoxCenterLoss".toList, (trainBatchStep slices).center_losses),
      ("BoxScaleLoss".toList, (trainBatchStep slices).scale_losses),
      ("ClassLoss".toList, (trainBatchStep slices).cls_losses)] = _
    rw [hstep]

/-- Claim C7: with at most one sync-BN device the network is built with
`pretrained=True` whatever the `--pretrained` flag (declared with
`action='store_false'`) holds; with more than one sync-BN device the full
pretrained weights are loaded iff `args.pretrained` is true, and only the
pretrained backbone otherwise. -/
theorem C7_pretrained_network (name : List Char) (syncbn : Bool) (g : Int) :
    (num_sync_bn_devices syncbn g ≤ 1 →
        ∀ p : Bool, buildNet name syncbn g p
            = NetConstruction.pretrainedFull name none)
    ∧ (num_sync_bn_devices syncbn g > 1 →
        buildNet name syncbn g (argPretrained false)
            = NetConstruction.pretrainedFull name
                (some (num_sync_bn_devices syncbn g))
        ∧ buildNet name syncbn g (argPretrained true)
            = NetConstruction.pretrainedBase name
                (num_sync_bn_devices syncbn g)) := by
  constructor
  · intro hle p
    unfold buildNet
    rw [if_neg (not_lt.mpr hle)]
  · intro hgt
    constructor
    · unfold buildNet
      rw [if_pos hgt]
      rfl
    · unfold buildNet
      rw [if_pos hgt]
      rfl

/-- Claim C8: without `--no-random-shape` the train loader uses exactly
the ten square transforms `x*32` for `x` in 10..19 (320 through 608),
re-sampled every 10 batches, shuffled, last incomplete batch discarded;
with it, a single fixed `data_shape` transform; the validation loader
always uses the fixed `data_shape` transform. -/
theorem C8_dataloader_shapes (ds bs : Nat) (mixup : Bool) :
    (get_dataloader ds bs false mixup).1
        = TrainLoaderCfg.randomShape
            [⟨320, 320, mixup⟩, ⟨352, 352, mixup⟩, ⟨384, 384, mixup⟩,
             ⟨416, 416, mixup⟩, ⟨448, 448, mixup⟩, ⟨480, 480, mixup⟩,
             ⟨512, 512, mixup⟩, ⟨544, 544, mixup⟩, ⟨576, 576, mixup⟩,
             ⟨608, 608, mixup⟩] bs 10 true true
    ∧ (get_dataloader ds bs true mixup).1
        = TrainLoaderCfg.fixedShape ⟨ds, ds, mixup⟩ bs true true
    ∧ (get_dataloader ds bs false mixup).2 = ⟨⟨ds, ds⟩, bs, true, true⟩
    ∧ (get_dataloader ds bs true mixup).2 = ⟨⟨ds, ds⟩, bs, true, true⟩ :=
  ⟨rfl, rfl, rfl, rfl⟩

/-- Claim C9: across calls sharing one `best_map` cell the cell is a
running maximum of its initial value and the `current_map` values seen so
far, it never decreases, the best-model checkpoint is written exactly
when that maximum strictly increases, and with a nonnegative initial best
a call passing `current_map = 0` never writes one. -/
theorem C9_best_map_monotone (best0 : ℚ) (history : List ℚ) (m : ℚ)
    (epoch si : Int) (pfx : List Char) :
    save_params_fold best0 history = history.foldl max best0
    ∧ best0 ≤ save_params_fold best0 history
    ∧ save_params_fold best0 history ≤ save_params_fold best0 (history ++ [m])
    ∧ (FileWrite.bestParams pfx
          ∈ (save_params (save_params_fold best0 history) m epoch si pfx).2
        ↔ save_params_fold best0 (history ++ [m])
            > save_params_fold best0 history)
    ∧ (0 ≤ best0 →
        (FileWrite.bestParams pfx
            ∈ (save_params (save_params_fold best0 history) 0 epoch si pfx).2
          ↔ False)) := by
  have hfold := save_params_fold_eq_max best0 history
  have happ : save_params_fold best0 (history ++ [m])
      = max (save_params_fold best0 history) m := by
    rw [save_params_fold_eq_max, save_params_fold_eq_max, List.foldl_append]
    rfl
  refine ⟨hfold, ?_, ?_, ?_, ?_⟩
  · rw [hfold]
    exact le_foldl_max best0 history
  · rw [happ]
    exact le_max_left _ _
  · rw [save_params_mem_best, happ]
    constructor
    · intro hlt
      exact lt_max_iff.mpr (Or.inr hlt)
    · intro hlt
      rcases lt_max_iff.mp hlt with hlt' | hlt'
      · exact absurd hlt' (lt_irrefl _)
      · exact hlt'
  · intro hb
    rw [save_params_mem_best]
    simp only [iff_false]
    intro hlt
    have : (0 : ℚ) ≤ save_params_fold best0 history := by
      rw [hfold]
      exact le_trans hb (le_foldl_max best0 history)
    exact absurd hlt (not_lt.mpr this)

/-- Claim C10: the body of `validate_train` loads the names `args`,
`val_data` and `gt_difficults`, none of which is a parameter or a local
of the function (and `gt_difficults` is bound nowhere in the script at
all), so a call of it stops with a `NameError`; its `train_data`
parameter is never read, and `validate_train` is called nowhere in the
script. -/
theorem C10_validate_train_dead :
    pyCallResult validate_train_env validate_train_reads
        = Except.error ("NameError: " ++ "args")
    ∧ "args" ∈ validate_train_reads
    ∧ "val_data" ∈ validate_train_reads
    ∧ "gt_difficults" ∈ validate_train_reads
    ∧ "args" ∉ validate_train_params ++ validate_train_locals
    ∧ "val_data" ∉ validate_train_params ++ validate_train_locals
    ∧ "gt_difficults" ∉ validate_train_params ++ validate_train_locals
        ++ moduleGlobalNames ++ mainGuardBinds ++ pythonBuiltins
    ∧ "train_data" ∉ validate_train_reads
    ∧ "validate_train" ∉ scriptCalledDefs := by
  refine ⟨rfl, ?_, ?_, ?_, ?_, ?_, ?_, ?_, ?_⟩ <;> decide

end YoloTrain
